import Mathlib

/-!
Verification development for the blender-mcp rigging subsystem.

The Python sources `addon.py` and `src/blender_mcp/rigging/humanoid.py` are
shallowly embedded below.  Scene objects, bones, meshes and modifiers become
plain Lean structures; the Blender object graph is represented by value, with
object identity replaced by name equality (object names are unique within a
scene, which Blender guarantees).  Positions are rationals.  Every Python
function relevant to the claims is translated into an executable Lean
definition that follows the source line by line.
-/

namespace BlenderMCP

/-! ### Python string primitives

Bone names in the sources are ASCII; `str.lower` is modelled per character
(`Char.toLower` lowers exactly the ASCII range, matching CPython on ASCII).
`str.replace(c, "")` for a single character is removal of every occurrence,
i.e. a filter.  `s.split(sep)[-1]` for a one character separator is the
longest suffix free of that separator.  `sub in s` is substring containment
and `s.startswith(p)` is a prefix test; both are written as structural
boolean recursions so that concrete instances reduce inside `decide`. -/

/-- Embeds Python `str.lower()` (per character ASCII lowering). -/
def pyLower (s : String) : String := ⟨s.data.map Char.toLower⟩

/-- Embeds Python `str.replace(c, "")` for a single-character pattern:
every occurrence of `c` is removed. -/
def removeChar (c : Char) (s : String) : String :=
  ⟨s.data.filter (fun a => !(a == c))⟩

/-- Embeds Python `s.split(':')[-1]`: the part of `s` after the last colon
(`s` itself when no colon occurs). -/
def afterLastColon (s : String) : String :=
  ⟨(s.data.reverse.takeWhile (fun a => !(a == ':'))).reverse⟩

/-- Boolean prefix test on character lists (first argument is the candidate
prefix). -/
def prefB : List Char → List Char → Bool
  | [], _ => true
  | _ :: _, [] => false
  | a :: as, b :: bs => a == b && prefB as bs

/-- Boolean substring test on character lists (first argument is the
pattern). -/
def subB (pat : List Char) : List Char → Bool
  | [] => pat.isEmpty
  | l@(_ :: rest) => prefB pat l || subB pat rest

/-- Embeds Python `pat in s` (substring containment). -/
def pyContains (s pat : String) : Bool := subB pat.data s.data

/-- Embeds Python `s.startswith(p)`. -/
def pyStartsWith (s p : String) : Bool := prefB p.data s.data

/-! ### Scene data model -/

/-- One bone of an armature: name, link to the parent bone (by name, `none`
for a root) and head/tail positions. -/
structure Bone where
  name : String
  parent : Option String
  head : ℚ × ℚ × ℚ
  tail : ℚ × ℚ × ℚ
deriving DecidableEq

/-- An armature object: scene name plus its ordered bone list. -/
structure ArmObj where
  name : String
  bones : List Bone
deriving DecidableEq

/-- A mesh modifier: its type tag and the target object of an armature
modifier (by value; `none` models a `None` target). -/
structure Modifier where
  type : String
  object : Option ArmObj
deriving DecidableEq

/-- A mesh object: scene name, vertex count and modifier stack. -/
structure MeshObj where
  name : String
  verts : Nat
  modifiers : List Modifier
deriving DecidableEq

/-- A scene object as enumerated by `bpy.context.scene.objects`. -/
inductive SceneObject where
  | mesh (m : MeshObj)
  | armature (a : ArmObj)
  | other (name : String)
deriving DecidableEq

/-- Name of a scene object (`obj.name`). -/
def objName : SceneObject → String
  | .mesh m => m.name
  | .armature a => a.name
  | .other n => n

/-- Embeds `bpy.data.objects.get(n)`: first object carrying that name. -/
def lookupObj (scene : List SceneObject) (n : String) : Option SceneObject :=
  scene.find? (fun o => objName o == n)

/-- Association-list read with Python `dict.get` semantics. -/
def dictGet {α : Type} (d : List (String × α)) (k : String) : Option α :=
  (d.find? (fun p => p.1 == k)).map (·.2)

/-- Association-list write with Python `dict` assignment semantics: an
existing key keeps its position and is overwritten, a new key is appended. -/
def dictInsert {α : Type} (d : List (String × α)) (k : String) (v : α) :
    List (String × α) :=
  if d.any (fun p => p.1 == k) then
    d.map (fun p => if p.1 == k then (k, v) else p)
  else d ++ [(k, v)]

/-! ### Rig classifier (`detect_rig_type`, identical in both sources) -/

/-- Embeds `detect_rig_type` from `addon.py` lines 153-174 (the copy in
`humanoid.py` lines 150-171 is textually identical). -/
def detect_rig_type : Option ArmObj → String
  | none => "mesh_only"
  | some arm =>
    let bone_names := arm.bones.map (fun b => pyLower b.name)
    let mixamo_hits := (bone_names.filter (fun n => pyContains n "mixamorig:")).length
    if mixamo_hits > 5 then "mixamo"
    else if bone_names.length > 10 then "generic_humanoid"
    else "unknown"

/-- Number of bone names whose lower-casing contains `"mixamorig:"`, phrased
directly on the raw name list as in the claim. -/
def mixamoHits (names : List String) : Nat :=
  (names.filter (fun n => pyContains (pyLower n) "mixamorig:")).length

/-- Helper for concrete instances: a bone with the given name, no parent and
zero positions. -/
def nb (s : String) : Bone := ⟨s, none, (0, 0, 0), (0, 0, 0)⟩

/-! ### Candidate selector (`find_best_humanoid_candidate`) -/

/-- Embeds the first pass of `find_best_humanoid_candidate` (`addon.py`
lines 118-123): the armature with the strictly greatest bone count, earlier
scene objects winning ties. -/
def pickArmature (scene : List SceneObject) : Option ArmObj :=
  (scene.foldl (fun (st : Option ArmObj × Nat) obj =>
    match obj with
    | .armature ar => if ar.bones.length > st.2 then (some ar, ar.bones.length) else st
    | _ => st) (none, 0)).1

/-- Embeds the second pass of `find_best_humanoid_candidate` (`addon.py`
lines 125-141) statement by statement, including both `break` statements:
when an armature was selected, a mesh whose armature modifier targets it
breaks the scan immediately, and the scan also breaks at the start of any
later mesh iteration once `mesh_obj` is non-`None` - even when it was set by
the vertex-count fallback of an earlier iteration. -/
def findMeshLoop (armSel : Option ArmObj) :
    List SceneObject → Option MeshObj → Nat → Option MeshObj
  | [], acc, _ => acc
  | obj :: rest, acc, maxV =>
    match obj with
    | .mesh m =>
      match armSel with
      | some ar =>
        let acc' := if m.modifiers.any
            (fun md => md.type == "ARMATURE" && md.object == some ar)
          then some m else acc
        match acc' with
        | some mm => some mm
        | none =>
          if m.verts > maxV then findMeshLoop armSel rest (some m) m.verts
          else findMeshLoop armSel rest none maxV
      | none =>
        if m.verts > maxV then findMeshLoop armSel rest (some m) m.verts
        else findMeshLoop armSel rest acc maxV
    | _ => findMeshLoop armSel rest acc maxV

/-- Embeds `find_best_humanoid_candidate` (`addon.py` lines 108-142; the
copy in `humanoid.py` lines 95-129 is textually identical). -/
def find_best_humanoid_candidate (scene : List SceneObject) :
    Option MeshObj × Option ArmObj :=
  let armature_obj := pickArmature scene
  (findMeshLoop armature_obj scene none 0, armature_obj)

/-- The mesh selection the claim describes: the mesh with the strictly
greatest vertex count over the whole scene, earlier meshes winning ties. -/
def maxVertexMesh (scene : List SceneObject) : Option MeshObj :=
  (scene.foldl (fun (st : Option MeshObj × Nat) obj =>
    match obj with
    | .mesh m => if m.verts > st.2 then (some m, m.verts) else st
    | _ => st) (none, 0)).1

/-! ### Rig normalizer -/

/-- The normalized description record (`NormalizedHumanoid` in both sources,
with its `to_dict` nesting flattened into fields). -/
structure NormalizedHumanoid where
  rig_type : String := "unknown"
  armature_name : Option String := none
  mesh_name : Option String := none
  has_armature_modifier : Bool := false
  vertex_count : Nat := 0
  bones_hips : Option String := none
  bones_head : Option String := none
  bones_hand_l : Option String := none
  bones_hand_r : Option String := none
  chain_spine : List String := []
  chain_arm_l : List String := []
  chain_arm_r : List String := []
  chain_leg_l : List String := []
  chain_leg_r : List String := []
  fingers_l : List (String × List String) := []
  fingers_r : List (String × List String) := []
deriving DecidableEq

/-- Embeds `get_armature_modifier` (`addon.py` lines 144-151): the first
modifier of type `ARMATURE` with a non-`None` target. -/
def get_armature_modifier (m : MeshObj) : Option Modifier :=
  m.modifiers.find? (fun md => md.type == "ARMATURE" && md.object.isSome)

/-- Direct children of the bone named `n` (`bone.children`), in bone list
order. -/
def childrenOf (bones : List Bone) (n : String) : List Bone :=
  bones.filter (fun b => b.parent == some n)

/-- Fuel-bounded preorder descent used to embed `bone.children_recursive`;
the fuel bounds the recursion depth, and `bones.length` is enough for every
acyclic parent relation (an armature invariant). -/
def childrenRecursiveAux (bones : List Bone) : Nat → String → List Bone
  | 0, _ => []
  | fuel + 1, n =>
    (childrenOf bones n).flatMap
      (fun c => c :: childrenRecursiveAux bones fuel c.name)

/-- Embeds `bone.children_recursive` for the bone named `n`: all descendants
in preorder. -/
def children_recursive (bones : List Bone) (n : String) : List Bone :=
  childrenRecursiveAux bones bones.length n

/-- Embeds the addon normalization key (`addon.py` line 200):
`b.name.lower().replace("_","").replace("-","").replace(" ","").split(':')[-1]`. -/
def normKey (s : String) : String :=
  afterLastColon (removeChar ' ' (removeChar '-' (removeChar '_' (pyLower s))))

/-- Embeds the dict comprehension of `addon.py` line 200: normalized key to
original bone name, later bones overwriting earlier ones on key collision. -/
def mkBoneMap (bones : List Bone) : List (String × String) :=
  bones.foldl (fun d b => dictInsert d (normKey b.name) b.name) []

/-- Embeds the finger-label match of `addon.py` lines 211 and 219: the first
of the five labels contained in the lower-cased child name. -/
def detectFinger (nm : String) : Option String :=
  ["thumb", "index", "middle", "ring", "pinky"].find?
    (fun f => pyContains (pyLower nm) f)

/-- Embeds the finger-collection loops of `addon.py` lines 210-214 and
218-222 for one hand: children of the hand bone are scanned in order and
each matched label is assigned its chain (child plus all descendants). -/
def fingersFor (bones : List Bone) (handName : String) :
    List (String × List String) :=
  (childrenOf bones handName).foldl (fun d child =>
    match detectFinger child.name with
    | some f => dictInsert d f
        ((child :: children_recursive bones child.name).map Bone.name)
    | none => d) []

/-- Embeds the mesh preamble shared by both `build_normalized_description`
implementations (`addon.py` lines 181-188): mesh name, vertex count, the
armature-modifier flag, and adoption of the modifier target when no armature
was given.  Returns (mesh name, vertex count, modifier flag, effective
armature). -/
def meshPreamble (mesh_obj : Option MeshObj) (armature_arg : Option ArmObj) :
    Option String × Nat × Bool × Option ArmObj :=
  match mesh_obj with
  | none => (none, 0, false, armature_arg)
  | some m =>
    match get_armature_modifier m with
    | none => (some m.name, m.verts, false, armature_arg)
    | some md => (some m.name, m.verts, true,
        armature_arg.orElse (fun _ => md.object))

namespace Addon

/-- Embeds `build_normalized_description` from `addon.py` lines 176-224:
role lookup through the normalized key map for every classified armature,
plus finger detection under each resolved hand bone. -/
def build_normalized_description (mesh_obj : Option MeshObj)
    (armature_arg : Option ArmObj) : NormalizedHumanoid :=
  match meshPreamble mesh_obj armature_arg with
  | (mn, vc, hm, none) =>
    { rig_type := "mesh_only", mesh_name := mn, vertex_count := vc,
      has_armature_modifier := hm }
  | (mn, vc, hm, some arm) =>
    let bm := mkBoneMap arm.bones
    let hl := dictGet bm "lefthand"
    let hr := dictGet bm "righthand"
    { rig_type := detect_rig_type (some arm),
      armature_name := some arm.name, mesh_name := mn,
      vertex_count := vc, has_armature_modifier := hm,
      bones_hips := dictGet bm "hips", bones_head := dictGet bm "head",
      bones_hand_l := hl, bones_hand_r := hr,
      fingers_l := match hl with
        | some h => fingersFor arm.bones h
        | none => [],
      fingers_r := match hr with
        | some h => fingersFor arm.bones h
        | none => [] }

end Addon

namespace Humanoid

/-- Embeds the Mixamo normalization key of `humanoid.py` line 201:
`b.name.lower().split(':')[-1]` (no underscore/dash/space removal). -/
def normKeyMixamo (s : String) : String := afterLastColon (pyLower s)

/-- Embeds the bone map of `humanoid.py` line 201. -/
def mkBoneMapMixamo (bones : List Bone) : List (String × String) :=
  bones.foldl (fun d b => dictInsert d (normKeyMixamo b.name) b.name) []

/-- Embeds `build_normalized_description` from `humanoid.py` lines 173-216:
roles and the spine chain are populated only for `mixamo` rigs; fingers are
never populated. -/
def build_normalized_description (mesh_obj : Option MeshObj)
    (armature_arg : Option ArmObj) : NormalizedHumanoid :=
  match meshPreamble mesh_obj armature_arg with
  | (mn, vc, hm, none) =>
    { rig_type := "mesh_only", mesh_name := mn, vertex_count := vc,
      has_armature_modifier := hm }
  | (mn, vc, hm, some arm) =>
    let rt := detect_rig_type (some arm)
    let bm := mkBoneMapMixamo arm.bones
    let hipsName := dictGet bm "hips"
    { rig_type := rt,
      armature_name := some arm.name, mesh_name := mn,
      vertex_count := vc, has_armature_modifier := hm,
      bones_hips := if rt == "mixamo" then hipsName else none,
      bones_head := if rt == "mixamo" then dictGet bm "head" else none,
      bones_hand_l := if rt == "mixamo" then dictGet bm "lefthand" else none,
      bones_hand_r := if rt == "mixamo" then dictGet bm "righthand" else none,
      chain_spine :=
        if rt == "mixamo" then
          match hipsName with
          | some h =>
            ((children_recursive arm.bones h).filter
              (fun b => pyContains (pyLower b.name) "spine")).map Bone.name
          | none => []
        else [] }

end Humanoid

/-! ### Procedural rig synthesizer (`rigging_auto_rig_meshy_character`) -/

/-- Embeds the bone construction of the fallback branch of
`rigging_auto_rig_meshy_character` (`addon.py` lines 303-378) as a function
of the bound-box fields the code reads: `bound_box[0]` is the minimum
corner, `bound_box[6]` the maximum corner, and only their X and Z
components are used (`x0`, `x6`, `z0`, `z6`).  Bones appear in creation
order with their parents and head/tail positions. -/
def fallbackRigBones (x0 x6 z0 z6 : ℚ) : List Bone :=
  let min_z := z0
  let max_z := z6
  let center_x := (x0 + x6) / 2
  let hips_pos : ℚ × ℚ × ℚ := (center_x, 0, min_z + (max_z - min_z) * 0.4)
  let spine_pos : ℚ × ℚ × ℚ := (center_x, 0, min_z + (max_z - min_z) * 0.6)
  let neck_pos : ℚ × ℚ × ℚ := (center_x, 0, min_z + (max_z - min_z) * 0.8)
  let head_pos : ℚ × ℚ × ℚ := (center_x, 0, max_z)
  let armsFor : String → List Bone := fun side =>
    let x_mult : ℚ := if side == "r" then 1 else -1
    let shoulder_pos : ℚ × ℚ × ℚ :=
      (center_x + x_mult * 0.1, 0, neck_pos.2.2 - 0.05)
    let elbow_pos : ℚ × ℚ × ℚ :=
      (center_x + x_mult * 0.3, 0, neck_pos.2.2 - 0.15)
    let hand_pos : ℚ × ℚ × ℚ :=
      (center_x + x_mult * 0.5, 0, neck_pos.2.2 - 0.2)
    [⟨"upper_arm." ++ side, some "spine", shoulder_pos, elbow_pos⟩,
     ⟨"lower_arm." ++ side, some ("upper_arm." ++ side), elbow_pos, hand_pos⟩,
     ⟨"hand." ++ side, some ("lower_arm." ++ side), hand_pos,
       (hand_pos.1 + x_mult * 0.05, hand_pos.2.1, hand_pos.2.2)⟩]
  let legsFor : String → List Bone := fun side =>
    let x_mult : ℚ := if side == "r" then 1 else -1
    let thigh_pos : ℚ × ℚ × ℚ := (center_x + x_mult * 0.08, 0, hips_pos.2.2)
    let calf_pos : ℚ × ℚ × ℚ :=
      (center_x + x_mult * 0.08, 0, min_z + (max_z - min_z) * 0.2)
    let foot_pos : ℚ × ℚ × ℚ := (center_x + x_mult * 0.08, 0, min_z)
    [⟨"thigh." ++ side, some "hips", thigh_pos, calf_pos⟩,
     ⟨"calf." ++ side, some ("thigh." ++ side), calf_pos, foot_pos⟩,
     ⟨"foot." ++ side, some ("calf." ++ side), foot_pos,
       (foot_pos.1, foot_pos.2.1 - 0.1, foot_pos.2.2)⟩]
  [⟨"hips", none, hips_pos, spine_pos⟩,
   ⟨"spine", some "hips", spine_pos, neck_pos⟩,
   ⟨"neck", some "spine", neck_pos, head_pos⟩,
   ⟨"head", some "neck", head_pos,
     (head_pos.1, head_pos.2.1, head_pos.2.2 + 0.1)⟩]
  ++ armsFor "l" ++ armsFor "r" ++ legsFor "l" ++ legsFor "r"

/-! ### Bone renamer (`rigging_rename_fingers_to_ue5`) -/

/-- Two digit zero padded rendering of a segment index
(`f"{i+1:02d}"` for the non-negative values that occur). -/
def pad2 (n : Nat) : String := if n < 10 then "0" ++ toString n else toString n

/-- Embeds the body-bone lookup table of `addon.py` lines 617-636, which
the source declares but never applies. -/
def UE5_BODY_MAP : List (String × String) :=
  [("hips", "pelvis"), ("spine", "spine_01"), ("spine1", "spine_02"),
   ("spine2", "spine_03"), ("neck", "neck_01"), ("head", "head"),
   ("leftarm", "upperarm_l"), ("leftforearm", "lowerarm_l"),
   ("lefthand", "hand_l"), ("rightarm", "upperarm_r"),
   ("rightforearm", "lowerarm_r"), ("righthand", "hand_r"),
   ("leftupleg", "thigh_l"), ("leftleg", "calf_l"), ("leftfoot", "foot_l"),
   ("rightupleg", "thigh_r"), ("rightleg", "calf_r"),
   ("rightfoot", "foot_r")]

/-- Embeds the subscript `inspection["hands"][k]["fingers"]` against the
`to_dict` structure (`addon.py` lines 94-103): the hands mapping is keyed
by `"left"` and `"right"`; any other key raises `KeyError`, which the
dispatcher converts to an error result (modelled as the error value). -/
def handsGet (fingers_l fingers_r : List (String × List String))
    (k : String) : Except String (List (String × List String)) :=
  if k == "left" then .ok fingers_l
  else if k == "right" then .ok fingers_r
  else .error ("KeyError: " ++ k)

/-- Embeds the per-side proposal loop of `addon.py` lines 606-612: the
hands lookup must succeed for the side key; each finger chain then
contributes `<finger>_<NN>_<side>` names in root-to-tip order, and a
proposal enters the dict only when it differs from the current name. -/
def buildProposalsAux (fingers_l fingers_r : List (String × List String)) :
    List String → List (String × String) →
    Except String (List (String × String))
  | [], d => .ok d
  | s :: restSides, d =>
    match handsGet fingers_l fingers_r s with
    | .error e => .error e
    | .ok fd =>
      buildProposalsAux fingers_l fingers_r restSides
        (fd.foldl (fun d p =>
          p.2.enum.foldl (fun d io =>
            let nw := p.1 ++ "_" ++ pad2 (io.1 + 1) ++ "_" ++ s
            if io.2 == nw then d else dictInsert d io.2 nw) d) d)

/-- The proposal phase of `addon.py` lines 602-612, including the
side-letter list of line 605.  The processed keys are the letters `"l"`
and `"r"` (or the lower-cased `side` argument), which are NOT the keys of
the hands mapping, so the lookup raises for every admissible `side`. -/
def buildProposals (fingers_l fingers_r : List (String × List String))
    (side : String) : Except String (List (String × String)) :=
  let sides := if side == "both" then ["l", "r"] else [pyLower side]
  buildProposalsAux fingers_l fingers_r sides []

/-- Embeds `bone.name = new_name` on `edit_bones.get(old_name)`: the first
bone with the old name is renamed (the collision check of the caller
guarantees the new name is fresh, so Blender performs the exact rename). -/
def renameBoneFirst : List Bone → String → String → List Bone
  | [], _, _ => []
  | b :: bs, old, nw =>
    if b.name == old then { b with name := nw } :: bs
    else b :: renameBoneFirst bs old nw

/-- Parent links are object references in Blender and follow a rename; in
this name-based model they are rewritten explicitly. -/
def retargetParents (bones : List Bone) (old nw : String) : List Bone :=
  bones.map (fun b =>
    if b.parent == some old then { b with parent := some nw } else b)

/-- One applied rename: the first bone named `old` takes the name `nw` and
parent links follow. -/
def renameBone (bones : List Bone) (old nw : String) : List Bone :=
  retargetParents (renameBoneFirst bones old nw) old nw

/-- Embeds the apply loop of `addon.py` lines 656-660: each proposal is
applied only when the old name resolves and the new name does not collide
with a bone name at that moment; a skipped proposal does not stop the
loop, and `applied_mappings` records exactly the renames performed. -/
def applyRenames : List Bone → List (String × String) →
    List Bone × List (String × String)
  | bones, [] => (bones, [])
  | bones, (old, nw) :: rest =>
    if bones.any (fun b => b.name == old) &&
        !(bones.any (fun b => b.name == nw)) then
      let r := applyRenames (renameBone bones old nw) rest
      (r.1, (old, nw) :: r.2)
    else applyRenames bones rest

/-- Result of the renamer: final edit bones, status, proposed and applied
mappings (the dry-run result carries no applied mappings). -/
structure RenameOut where
  bones : List Bone
  status : String
  proposed : List (String × String)
  applied : List (String × String)
deriving DecidableEq

/-- Embeds `rigging_rename_fingers_to_ue5` (`addon.py` lines 585-668) after
inspection succeeded, as a function of the armature edit bones, the
inspection hands data and the `side`, `include_body` and `dry_run`
parameters.  A `KeyError` from the proposal phase aborts the call before
the body-map binding, before the dry-run return and before the apply loop
(the dispatcher reports it as an error result).  On the continuation, the
body map of lines 617-636 is bound when `include_body` is set but -
exactly as in the source - never used (the branch ends in `pass`). -/
def rigging_rename_fingers_to_ue5 (bones : List Bone)
    (fingers_l fingers_r : List (String × List String))
    (side : String) (include_body : Bool) (dry_run : Bool) :
    Except String RenameOut :=
  match buildProposals fingers_l fingers_r side with
  | .error e => .error e
  | .ok proposed =>
    let _body_map := if include_body then some UE5_BODY_MAP else none
    if dry_run then .ok ⟨bones, "success_dry_run", proposed, []⟩
    else
      let r := applyRenames bones proposed
      .ok ⟨r.1, "success", proposed, r.2⟩

/-! ### Finger weight re-binder (`rigging_auto_weight_fingers_only`) -/

/-- Embeds the vertex-group deletion loop of `rigging_auto_weight_fingers_only`
(`addon.py` lines 535-537), which removes groups from the very collection it
is iterating.  Iteration over the sequence-like collection is positional:
the loop yields the element at the iterator index and advances; removing the
just-yielded element shifts every later group down one slot, so the next
yield skips the group that followed a removed one.  The fuel argument only
bounds the number of iterations; `groups.length` steps always suffice
because the distance between index and length shrinks every step. -/
def removeLoopAux (keep : String → Bool) : Nat → List String → Nat → List String
  | 0, gs, _ => gs
  | fuel + 1, gs, j =>
    if h : j < gs.length then
      if keep (gs.get ⟨j, h⟩) then removeLoopAux keep fuel gs (j + 1)
      else removeLoopAux keep fuel (gs.eraseIdx j) (j + 1)
    else gs

/-- Step 5 of the re-binder: delete every vertex group whose name is not in
the finger-bone-name set, by removal during iteration as the source does. -/
def remove_non_finger_groups (groups finger_bone_names : List String) :
    List String :=
  removeLoopAux (fun g => finger_bone_names.contains g) groups.length groups 0

/-- The deletion the claim describes: keep exactly the groups whose name is
in the finger-bone-name set. -/
def remove_non_finger_groups_spec (groups finger_bone_names : List String) :
    List String :=
  groups.filter (fun g => finger_bone_names.contains g)

/-! ### Claims about the normalizer -/

/-- Claim-side formulation of the per-bone key: keep the last
colon-separated segment, written as a left fold that resets at each colon. -/
def lastSegment (l : List Char) : List Char :=
  l.foldl (fun acc c => if c = ':' then [] else acc ++ [c]) []

/-- Claim-side key: lower-case, drop every underscore, dash and space in one
filter, then keep the substring after the last colon. -/
def specKey (s : String) : String :=
  ⟨lastSegment ((s.data.map Char.toLower).filter
    (fun c => !(c == '_' || c == '-' || c == ' ')))⟩

/-- Claim-side key map over a bone list. -/
def specKeyMap (bones : List Bone) : List (String × String) :=
  bones.foldl (fun d b => dictInsert d (specKey b.name) b.name) []

/-! ### Inspection command (`rigging_inspect_humanoid_rig`) -/

/-- View of a scene object as a mesh. -/
def asMesh : SceneObject → Option MeshObj
  | .mesh m => some m
  | _ => none

/-- View of a scene object as an armature. -/
def asArm : SceneObject → Option ArmObj
  | .armature a => some a
  | _ => none

/-- Embeds `rigging_inspect_humanoid_rig` (`addon.py` lines 227-247; the
package function `inspect_humanoid_rig`, `humanoid.py` lines 221-243, is
textually identical): resolve the named objects, fall back to the candidate
selector only when NEITHER name resolved, and fail when no mesh resolved.
A named object of the wrong type makes the Python body raise, which the
dispatcher converts to an error result; that path is modelled by the two
`type error` results. -/
def rigging_inspect_humanoid_rig (scene : List SceneObject)
    (mesh_name armature_name : Option String) :
    Except String NormalizedHumanoid :=
  let mesh_obj := mesh_name.bind (lookupObj scene)
  let armature_obj := armature_name.bind (lookupObj scene)
  let pair : Option SceneObject × Option SceneObject :=
    if mesh_obj.isNone && armature_obj.isNone then
      let c := find_best_humanoid_candidate scene
      (c.1.map SceneObject.mesh, c.2.map SceneObject.armature)
    else (mesh_obj, armature_obj)
  match pair.1 with
  | none => .error "Could not find a suitable mesh object in the scene."
  | some o =>
    match asMesh o with
    | none => .error "type error: named mesh object is not a mesh"
    | some m =>
      match pair.2 with
      | none => .ok (Addon.build_normalized_description (some m) none)
      | some ao =>
        match asArm ao with
        | none => .error "type error: named armature object is not an armature"
        | some ar => .ok (Addon.build_normalized_description (some m) (some ar))

/-! ### Finger chain completer (`rigging_ensure_finger_chains_for_hand`) -/

/-- Componentwise vector addition (`mathutils.Vector` addition). -/
def vadd (a b : ℚ × ℚ × ℚ) : ℚ × ℚ × ℚ :=
  (a.1 + b.1, a.2.1 + b.2.1, a.2.2 + b.2.2)

/-- Embeds the `finger_positions` table of `addon.py` lines 439-445 with
the `dict.get` default `(0, 0, 0)`. -/
def finger_positions : String → ℚ × ℚ × ℚ
  | "thumb" => (0, -0.03, 0.02)
  | "index" => (0, -0.01, 0.05)
  | "middle" => (0, 0, 0.05)
  | "ring" => (0, 0.01, 0.05)
  | "pinky" => (0, 0.02, 0.04)
  | _ => (0, 0, 0)

/-- Embeds the segment-creation loop of `addon.py` lines 454-467: segment
`i` (0-based) is named `<finger>_<i+1><suffix>`, parented to the previous
segment (the hand bone for the first), its head at the previous tail (the
offset hand tail for the first) and its tail 0.02 below the head in Y.
`edit_bones.new` would suffix a duplicate name with `.001`; that cannot
change the finger-label prefix of the lower-cased name, so exact names are
used here. -/
def buildSegs (finger suffix : String) :
    String → ℚ × ℚ × ℚ → Nat → Nat → List Bone
  | _, _, _, 0 => []
  | parentName, start, i, rem + 1 =>
    let nm := finger ++ "_" ++ toString (i + 1) ++ suffix
    let tl : ℚ × ℚ × ℚ := (start.1, start.2.1 - 0.02, start.2.2)
    ⟨nm, some parentName, start, tl⟩ ::
      buildSegs finger suffix nm tl (i + 1) rem

/-- The existence check of `addon.py` line 449: some direct child of the
hand bone has a lower-cased name starting with the finger label. -/
def fingerExists (bones : List Bone) (handName finger : String) : Bool :=
  (childrenOf bones handName).any (fun c => pyStartsWith (pyLower c.name) finger)

/-- Embeds the per-finger loop of `rigging_ensure_finger_chains_for_hand`
(`addon.py` lines 447-469) on the edit-bone list, given the resolved hand
bone and the side suffix: a finger whose label already prefixes a child of
the hand is reported `existed`, otherwise its segment chain is created and
it is reported `created`.  Returns the final edit-bone list and the
`created_fingers` statuses in loop order. -/
def ensureFingers (hand : Bone) (suffix : String) (segs : Nat) :
    List Bone → List String → List Bone × List (String × String)
  | bones, [] => (bones, [])
  | bones, f :: rest =>
    if fingerExists bones hand.name f then
      let r := ensureFingers hand suffix segs bones rest
      (r.1, (f, "existed") :: r.2)
    else
      let start := vadd hand.tail (finger_positions f)
      let r := ensureFingers hand suffix segs
        (bones ++ buildSegs f suffix hand.name start 0 segs) rest
      (r.1, (f, "created") :: r.2)

/-! ### Theorems -/

theorem prefB_iff (p l : List Char) : prefB p l = true ↔ p <+: l := by
  induction p generalizing l with
  | nil => simp [prefB]
  | cons a as ih =>
    cases l with
    | nil => simp [prefB]
    | cons b bs =>
      simp only [prefB, Bool.and_eq_true, beq_iff_eq, ih]
      constructor
      · rintro ⟨rfl, t, ht⟩
        exact ⟨t, by simp [ht]⟩
      · rintro ⟨t, ht⟩
        cases ht
        exact ⟨rfl, ⟨t, rfl⟩⟩

theorem pyStartsWith_append (a b : String) :
    pyStartsWith (⟨a.data ++ b.data⟩ : String) a = true := by
  rw [pyStartsWith, prefB_iff]
  exact ⟨b.data, rfl⟩

theorem detect_rig_type_some (arm : ArmObj) :
    detect_rig_type (some arm) =
      if mixamoHits (arm.bones.map Bone.name) > 5 then "mixamo"
      else if arm.bones.length > 10 then "generic_humanoid"
      else "unknown" := by
  unfold detect_rig_type mixamoHits
  simp only [List.map_map, List.filter_map, List.length_map, Function.comp_def]

/-- C5: for every bound box, the fallback synthesizer places the hips head
at 40 percent of the Z-extent above the minimum, the spine head at 60
percent, the neck head at 80 percent, the head-bone head at the maximum and
the head-bone tail 0.1 above the maximum, each centered on the X midpoint
of the bound box with Y = 0. -/
theorem claim_c5_fallback_landmarks (x0 x6 z0 z6 : ℚ) :
    ((fallbackRigBones x0 x6 z0 z6).find? (fun b => b.name == "hips")).map
        Bone.head = some ((x0 + x6) / 2, 0, z0 + (2/5) * (z6 - z0)) ∧
    ((fallbackRigBones x0 x6 z0 z6).find? (fun b => b.name == "spine")).map
        Bone.head = some ((x0 + x6) / 2, 0, z0 + (3/5) * (z6 - z0)) ∧
    ((fallbackRigBones x0 x6 z0 z6).find? (fun b => b.name == "neck")).map
        Bone.head = some ((x0 + x6) / 2, 0, z0 + (4/5) * (z6 - z0)) ∧
    ((fallbackRigBones x0 x6 z0 z6).find? (fun b => b.name == "head")).map
        Bone.head = some ((x0 + x6) / 2, 0, z6) ∧
    ((fallbackRigBones x0 x6 z0 z6).find? (fun b => b.name == "head")).map
        Bone.tail = some ((x0 + x6) / 2, 0, z6 + 1/10) := by
  have h1 : (fallbackRigBones x0 x6 z0 z6).find? (fun b => b.name == "hips")
      = some ⟨"hips", none,
          ((x0 + x6) / 2, 0, z0 + (z6 - z0) * 0.4),
          ((x0 + x6) / 2, 0, z0 + (z6 - z0) * 0.6)⟩ := rfl
  have h2 : (fallbackRigBones x0 x6 z0 z6).find? (fun b => b.name == "spine")
      = some ⟨"spine", some "hips",
          ((x0 + x6) / 2, 0, z0 + (z6 - z0) * 0.6),
          ((x0 + x6) / 2, 0, z0 + (z6 - z0) * 0.8)⟩ := rfl
  have h3 : (fallbackRigBones x0 x6 z0 z6).find? (fun b => b.name == "neck")
      = some ⟨"neck", some "spine",
          ((x0 + x6) / 2, 0, z0 + (z6 - z0) * 0.8),
          ((x0 + x6) / 2, 0, z6)⟩ := rfl
  have h4 : (fallbackRigBones x0 x6 z0 z6).find? (fun b => b.name == "head")
      = some ⟨"head", some "neck",
          ((x0 + x6) / 2, 0, z6),
          ((x0 + x6) / 2, 0, z6 + 0.1)⟩ := rfl
  refine ⟨?_, ?_, ?_, ?_, ?_⟩
  · rw [h1]
    simp only [Option.map_some', Option.some.injEq, Prod.mk.injEq]
    refine ⟨trivial, trivial, ?_⟩
    norm_num
    ring
  · rw [h2]
    simp only [Option.map_some', Option.some.injEq, Prod.mk.injEq]
    refine ⟨trivial, trivial, ?_⟩
    norm_num
    ring
  · rw [h3]
    simp only [Option.map_some', Option.some.injEq, Prod.mk.injEq]
    refine ⟨trivial, trivial, ?_⟩
    norm_num
    ring
  · rw [h4]
    rfl
  · rw [h4]
    simp only [Option.map_some', Option.some.injEq, Prod.mk.injEq]
    refine ⟨trivial, trivial, ?_⟩
    norm_num

/-- C7 fails on the code: the renamer reads
`inspection["hands"][s]["fingers"]` with the side letters `"l"` and `"r"`
(`addon.py` lines 605-607), but `to_dict` keys the hands mapping with
`"left"` and `"right"` (`addon.py` lines 94-103).  For every admissible
`side` value, every call that reaches proposal construction therefore
raises `KeyError` on the first processed side - before the body-map
branch, before the dry-run return and before the apply loop - so no rename
is ever proposed or applied, no applied-mapping set is ever returned, and
the dry-run/apply behaviour the claim describes is unreachable. -/
theorem claim_c7_renamer_keyerror (bones : List Bone)
    (fingers_l fingers_r : List (String × List String))
    (include_body dry_run : Bool) :
    rigging_rename_fingers_to_ue5 bones fingers_l fingers_r "L"
        include_body dry_run = .error "KeyError: l" ∧
    rigging_rename_fingers_to_ue5 bones fingers_l fingers_r "R"
        include_body dry_run = .error "KeyError: r" ∧
    rigging_rename_fingers_to_ue5 bones fingers_l fingers_r "both"
        include_body dry_run = .error "KeyError: l" :=
  ⟨rfl, rfl, rfl⟩

/-- C8: the `include_body` flag never influences the renamer output: for
every input, the run with `include_body` set returns exactly the same
result - and hence the same proposed mappings and applied renames whenever
any are produced - as the run without it.  The declared body-bone table
cannot contribute: with an admissible side the call fails with a
`KeyError` before the flag is consulted (the C7 result above), and even on
a continuation past the proposal phase the bound table is never read. -/
theorem claim_c8_include_body_noninterference (bones : List Bone)
    (fingers_l fingers_r : List (String × List String)) (side : String)
    (dry_run : Bool) :
    rigging_rename_fingers_to_ue5 bones fingers_l fingers_r side true dry_run
      = rigging_rename_fingers_to_ue5 bones fingers_l fingers_r side false
          dry_run := rfl

/-- C3 fails on the code: the deletion loop of the re-binder removes groups
from the collection it is iterating, so it skips the group that follows
each removed one.  On the claim's own example - groups
`[hips, spine, thumb_1.l]` with finger set `{thumb_1.l}` - the code removes
`hips`, the shift makes the iterator skip `spine`, and the surviving group
set is `{spine, thumb_1.l}`, not the claimed `{thumb_1.l}` (which is what
the intended filter would produce). -/
theorem claim_c3_rebinder_counterexample :
    remove_non_finger_groups ["hips", "spine", "thumb_1.l"] ["thumb_1.l"]
      = ["spine", "thumb_1.l"] ∧
    remove_non_finger_groups_spec ["hips", "spine", "thumb_1.l"] ["thumb_1.l"]
      = ["thumb_1.l"] ∧
    remove_non_finger_groups ["hips", "spine", "thumb_1.l"] ["thumb_1.l"]
      ≠ ["thumb_1.l"] := by
  refine ⟨by decide, by decide, by decide⟩

theorem lastSegment_concat (l : List Char) (c : Char) :
    lastSegment (l ++ [c]) = if c = ':' then [] else lastSegment l ++ [c] := by
  simp [lastSegment, List.foldl_append]

theorem afterLastColon_eq_lastSegment (l : List Char) :
    (afterLastColon ⟨l⟩).data = lastSegment l := by
  induction l using List.reverseRecOn with
  | nil => rfl
  | append_singleton l c ih =>
    rw [lastSegment_concat]
    by_cases hc : c = ':'
    · simp [afterLastColon, hc, List.takeWhile]
    · simp only [afterLastColon, List.reverse_append, List.reverse_singleton,
        List.singleton_append, List.takeWhile] at ih ⊢
      have : (!(c == ':')) = true := by simp [hc]
      simp [this, hc, ih]

theorem normKey_eq_specKey (s : String) : normKey s = specKey s := by
  have hfil : removeChar ' ' (removeChar '-' (removeChar '_' (pyLower s)))
      = ⟨(s.data.map Char.toLower).filter
          (fun c => !(c == '_' || c == '-' || c == ' '))⟩ := by
    apply String.ext
    simp only [removeChar, pyLower, List.filter_filter]
    refine List.filter_congr ?_
    intro a _
    cases h1 : a == '_' <;> cases h2 : a == '-' <;> cases h3 : a == ' ' <;>
      simp [h1, h2, h3]
  unfold normKey
  rw [hfil, specKey]
  apply String.ext
  exact afterLastColon_eq_lastSegment _

theorem mkBoneMap_eq_specKeyMap (bones : List Bone) :
    mkBoneMap bones = specKeyMap bones := by
  unfold mkBoneMap specKeyMap
  congr 1
  funext d b
  rw [normKey_eq_specKey]

theorem meshPreamble_some (mesh_obj : Option MeshObj) (arm : ArmObj) :
    meshPreamble mesh_obj (some arm) =
      (mesh_obj.map MeshObj.name, (mesh_obj.map MeshObj.verts).getD 0,
        (mesh_obj.map (fun m => (get_armature_modifier m).isSome)).getD false,
        some arm) := by
  cases mesh_obj with
  | none => rfl
  | some m =>
    cases h : get_armature_modifier m <;>
      simp [meshPreamble, h, Option.orElse]

/-- C6: for every classified armature (the armature argument resolves, so
the rig type is never `mesh_only`), the addon normalizer builds the per-bone
key by lower-casing, removing underscore, dash and space characters, and
keeping the substring after the last colon, and resolves the four canonical
roles by lookup of `hips`, `head`, `lefthand` and `righthand` in the
resulting key-to-original-name map; an armature adopted from the armature
modifier of the mesh is treated identically. -/
theorem claim_c6_role_resolution (mesh_obj : Option MeshObj) (arm : ArmObj) :
    (∀ s, normKey s = specKey s) ∧
    (Addon.build_normalized_description mesh_obj (some arm)).rig_type
      ≠ "mesh_only" ∧
    (Addon.build_normalized_description mesh_obj (some arm)).bones_hips
      = dictGet (specKeyMap arm.bones) "hips" ∧
    (Addon.build_normalized_description mesh_obj (some arm)).bones_head
      = dictGet (specKeyMap arm.bones) "head" ∧
    (Addon.build_normalized_description mesh_obj (some arm)).bones_hand_l
      = dictGet (specKeyMap arm.bones) "lefthand" ∧
    (Addon.build_normalized_description mesh_obj (some arm)).bones_hand_r
      = dictGet (specKeyMap arm.bones) "righthand" ∧
    (∀ m md, get_armature_modifier m = some md →
      Addon.build_normalized_description (some m) none
        = Addon.build_normalized_description (some m) md.object) := by
  have hb : Addon.build_normalized_description mesh_obj (some arm) =
      { rig_type := detect_rig_type (some arm),
        armature_name := some arm.name,
        mesh_name := mesh_obj.map MeshObj.name,
        vertex_count := (mesh_obj.map MeshObj.verts).getD 0,
        has_armature_modifier :=
          (mesh_obj.map (fun m => (get_armature_modifier m).isSome)).getD false,
        bones_hips := dictGet (mkBoneMap arm.bones) "hips",
        bones_head := dictGet (mkBoneMap arm.bones) "head",
        bones_hand_l := dictGet (mkBoneMap arm.bones) "lefthand",
        bones_hand_r := dictGet (mkBoneMap arm.bones) "righthand",
        fingers_l := match dictGet (mkBoneMap arm.bones) "lefthand" with
          | some h => fingersFor arm.bones h
          | none => [],
        fingers_r := match dictGet (mkBoneMap arm.bones) "righthand" with
          | some h => fingersFor arm.bones h
          | none => [] } := by
    unfold Addon.build_normalized_description
    rw [meshPreamble_some]
  refine ⟨normKey_eq_specKey, ?_, ?_, ?_, ?_, ?_, ?_⟩
  · rw [hb]
    simp only [ne_eq]
    rw [detect_rig_type_some]
    split
    · simp
    · split <;> simp
  · rw [hb, mkBoneMap_eq_specKeyMap]
  · rw [hb, mkBoneMap_eq_specKeyMap]
  · rw [hb, mkBoneMap_eq_specKeyMap]
  · rw [hb, mkBoneMap_eq_specKeyMap]
  · intro m md hmd
    have hsome : md.object.isSome := by
      have := List.find?_some hmd
      simp only [Bool.and_eq_true, beq_iff_eq] at this
      exact this.2
    obtain ⟨a, ha⟩ := Option.isSome_iff_exists.mp hsome
    have e1 : meshPreamble (some m) none = (some m.name, m.verts, true, md.object) := by
      simp [meshPreamble, hmd, Option.orElse]
    have e2 : meshPreamble (some m) md.object
        = (some m.name, m.verts, true, md.object) := by
      simp [meshPreamble, hmd, ha, Option.orElse]
    unfold Addon.build_normalized_description
    rw [e1, e2]

/-- Concrete instantiation of `claim_c6_role_resolution`: a mesh whose
armature modifier targets a one-bone rig named `Hips` resolves the `hips`
role through the key map, and passing the armature explicitly or letting the
modifier supply it gives the same normalized description. -/
theorem claim_c6_role_resolution_witness :
    (Addon.build_normalized_description
        (some ⟨"Body", 8, [⟨"ARMATURE", some ⟨"Rig", [nb "Hips"]⟩⟩]⟩)
        (some ⟨"Rig", [nb "Hips"]⟩)).bones_hips
      = dictGet (specKeyMap [nb "Hips"]) "hips" ∧
    Addon.build_normalized_description
        (some ⟨"Body", 8, [⟨"ARMATURE", some ⟨"Rig", [nb "Hips"]⟩⟩]⟩) none
      = Addon.build_normalized_description
        (some ⟨"Body", 8, [⟨"ARMATURE", some ⟨"Rig", [nb "Hips"]⟩⟩]⟩)
        (Modifier.object ⟨"ARMATURE", some ⟨"Rig", [nb "Hips"]⟩⟩) := by
  obtain ⟨-, -, h1, -, -, -, h2⟩ := claim_c6_role_resolution
    (some ⟨"Body", 8, [⟨"ARMATURE", some ⟨"Rig", [nb "Hips"]⟩⟩]⟩)
    ⟨"Rig", [nb "Hips"]⟩
  exact ⟨h1, h2 ⟨"Body", 8, [⟨"ARMATURE", some ⟨"Rig", [nb "Hips"]⟩⟩]⟩
    ⟨"ARMATURE", some ⟨"Rig", [nb "Hips"]⟩⟩ rfl⟩

/-- C10: whenever the armature name resolves to some scene object but the
mesh name resolves to nothing (absent or not found), inspection returns the
not-found error for the mesh - even in scenes that do contain meshes -
because the candidate selector only runs when neither name resolved. -/
theorem claim_c10_inspect_error (scene : List SceneObject)
    (mesh_name armature_name : Option String) (an : String) (o : SceneObject)
    (ha : armature_name = some an) (hlook : lookupObj scene an = some o)
    (hm : mesh_name.bind (lookupObj scene) = none) :
    rigging_inspect_humanoid_rig scene mesh_name armature_name
      = .error "Could not find a suitable mesh object in the scene." := by
  unfold rigging_inspect_humanoid_rig
  rw [hm, ha]
  simp [hlook]

/-- Concrete instantiation of `claim_c10_inspect_error`: the scene contains
the mesh `Body`, yet inspecting with only `armature_name = "Rig"` reports
that no suitable mesh was found. -/
theorem claim_c10_inspect_error_witness :
    rigging_inspect_humanoid_rig
        [.mesh ⟨"Body", 100, []⟩, .armature ⟨"Rig", [nb "Hips"]⟩]
        none (some "Rig")
      = .error "Could not find a suitable mesh object in the scene." :=
  claim_c10_inspect_error
    [.mesh ⟨"Body", 100, []⟩, .armature ⟨"Rig", [nb "Hips"]⟩]
    none (some "Rig") "Rig" (.armature ⟨"Rig", [nb "Hips"]⟩)
    rfl (by decide) rfl

/-- C9 fails on the code: the two `build_normalized_description`
implementations disagree.  On the armature `Rig` with the single bone
`Hips` (rig type `unknown`), the addon version resolves the `hips` role
while the package version leaves every role empty, because it only resolves
roles for `mixamo` rigs. -/
theorem claim_c9_builds_differ_counterexample :
    (Addon.build_normalized_description none (some ⟨"Rig", [nb "Hips"]⟩)).bones_hips
      = some "Hips" ∧
    (Humanoid.build_normalized_description none (some ⟨"Rig", [nb "Hips"]⟩)).bones_hips
      = none ∧
    Addon.build_normalized_description none (some ⟨"Rig", [nb "Hips"]⟩)
      ≠ Humanoid.build_normalized_description none (some ⟨"Rig", [nb "Hips"]⟩) := by
  refine ⟨by decide, by decide, by decide⟩

/-- C9 amended: the two implementations agree on the classification and
mesh bookkeeping - rig type, armature name, mesh name, vertex count and the
armature-modifier flag - for every input, though not on roles, chains or
fingers. -/
theorem claim_c9_builds_agree_on_classification (mesh_obj : Option MeshObj)
    (armature_arg : Option ArmObj) :
    (Addon.build_normalized_description mesh_obj armature_arg).rig_type
      = (Humanoid.build_normalized_description mesh_obj armature_arg).rig_type ∧
    (Addon.build_normalized_description mesh_obj armature_arg).armature_name
      = (Humanoid.build_normalized_description mesh_obj armature_arg).armature_name ∧
    (Addon.build_normalized_description mesh_obj armature_arg).mesh_name
      = (Humanoid.build_normalized_description mesh_obj armature_arg).mesh_name ∧
    (Addon.build_normalized_description mesh_obj armature_arg).vertex_count
      = (Humanoid.build_normalized_description mesh_obj armature_arg).vertex_count ∧
    (Addon.build_normalized_description mesh_obj armature_arg).has_armature_modifier
      = (Humanoid.build_normalized_description mesh_obj armature_arg).has_armature_modifier := by
  unfold Addon.build_normalized_description Humanoid.build_normalized_description
  rcases h : meshPreamble mesh_obj armature_arg with ⟨mn, vc, hm, armEff⟩
  cases armEff <;> simp

theorem pyStartsWith_lower_of_pre (f s : String) (hf : pyLower f = f)
    (hs : f.data <+: s.data) : pyStartsWith (pyLower s) f = true := by
  rw [pyStartsWith, prefB_iff]
  have hfd : f.data.map Char.toLower = f.data := congrArg String.data hf
  have := hs.map Char.toLower
  rwa [hfd] at this

theorem fingerExists_append (bones ext : List Bone) (handName finger : String)
    (h : fingerExists bones handName finger = true) :
    fingerExists (bones ++ ext) handName finger = true := by
  simp only [fingerExists, childrenOf, List.filter_append, List.any_append,
    Bool.or_eq_true] at h ⊢
  exact Or.inl h

theorem ensureFingers_state_append (hand : Bone) (suffix : String) (segs : Nat) :
    ∀ (fingers : List String) (bones : List Bone),
      ∃ ext, (ensureFingers hand suffix segs bones fingers).1 = bones ++ ext := by
  intro fingers
  induction fingers with
  | nil => intro bones; exact ⟨[], by simp [ensureFingers]⟩
  | cons f rest ih =>
    intro bones
    by_cases h : fingerExists bones hand.name f
    · obtain ⟨ext, he⟩ := ih bones
      exact ⟨ext, by simp [ensureFingers, h, he]⟩
    · obtain ⟨ext, he⟩ := ih (bones ++
        buildSegs f suffix hand.name (vadd hand.tail (finger_positions f)) 0 segs)
      exact ⟨buildSegs f suffix hand.name
          (vadd hand.tail (finger_positions f)) 0 segs ++ ext,
        by simp [ensureFingers, h, he]⟩

theorem fingerExists_after_create (bones : List Bone) (hand : Bone)
    (f suffix : String) (start : ℚ × ℚ × ℚ) (k : Nat) (hf : pyLower f = f) :
    fingerExists (bones ++ buildSegs f suffix hand.name start 0 (k + 1))
      hand.name f = true := by
  simp only [fingerExists, childrenOf, List.filter_append, List.any_append,
    Bool.or_eq_true]
  right
  simp only [buildSegs, List.filter, List.any]
  have hp : pyStartsWith
      (pyLower (f ++ "_" ++ toString (0 + 1) ++ suffix)) f = true := by
    apply pyStartsWith_lower_of_pre f _ hf
    simp only [String.data_append, List.append_assoc]
    exact List.prefix_append _ _
  simp [hp]

theorem ensureFingers_establishes (hand : Bone) (suffix : String) (segs : Nat)
    (hsegs : 1 ≤ segs) :
    ∀ (fingers : List String) (bones : List Bone),
      (∀ f ∈ fingers, pyLower f = f) →
      ∀ f ∈ fingers,
        fingerExists (ensureFingers hand suffix segs bones fingers).1
          hand.name f = true := by
  intro fingers
  induction fingers with
  | nil => simp
  | cons g rest ih =>
    intro bones hlow f hf
    obtain ⟨k, rfl⟩ : ∃ k, segs = k + 1 := ⟨segs - 1, by omega⟩
    by_cases hg : fingerExists bones hand.name g
    · have hstate : (ensureFingers hand suffix (k + 1) bones (g :: rest)).1
          = (ensureFingers hand suffix (k + 1) bones rest).1 := by
        simp [ensureFingers, hg]
      rw [hstate]
      rcases List.mem_cons.mp hf with rfl | hfr
      · obtain ⟨ext, he⟩ := ensureFingers_state_append hand suffix (k + 1) rest bones
        rw [he]
        exact fingerExists_append _ _ _ _ hg
      · exact ih bones (fun x hx => hlow x (List.mem_cons_of_mem _ hx)) f hfr
    · have hstate : (ensureFingers hand suffix (k + 1) bones (g :: rest)).1
          = (ensureFingers hand suffix (k + 1)
              (bones ++ buildSegs g suffix hand.name
                (vadd hand.tail (finger_positions g)) 0 (k + 1)) rest).1 := by
        simp [ensureFingers, hg]
      rw [hstate]
      rcases List.mem_cons.mp hf with rfl | hfr
      · obtain ⟨ext, he⟩ := ensureFingers_state_append hand suffix (k + 1) rest
          (bones ++ buildSegs f suffix hand.name
            (vadd hand.tail (finger_positions f)) 0 (k + 1))
        rw [he]
        exact fingerExists_append _ _ _ _
          (fingerExists_after_create bones hand f suffix _ k (hlow f hf))
      · exact ih _ (fun x hx => hlow x (List.mem_cons_of_mem _ hx)) f hfr

theorem ensureFingers_all_exist (hand : Bone) (suffix : String) (segs : Nat) :
    ∀ (fingers : List String) (bones : List Bone),
      (∀ f ∈ fingers, fingerExists bones hand.name f = true) →
      ensureFingers hand suffix segs bones fingers
        = (bones, fingers.map (fun f => (f, "existed"))) := by
  intro fingers
  induction fingers with
  | nil => intro bones _; rfl
  | cons g rest ih =>
    intro bones h
    have hg := h g (by simp)
    simp [ensureFingers, hg,
      ih bones (fun x hx => h x (List.mem_cons_of_mem _ hx))]

/-- C4 amended: running the finger chain completer twice with the same hand
bone, side suffix, finger list and segment count is idempotent PROVIDED the
segment count is at least 1 and every requested finger label equals its own
lower-casing: the second run reports `existed` for every requested finger,
creates no bones, and leaves the bone list unchanged. -/
theorem claim_c4_ensure_finger_chains_idempotent (hand : Bone)
    (suffix : String) (segs : Nat) (fingers : List String) (bones : List Bone)
    (hsegs : 1 ≤ segs) (hlow : ∀ f ∈ fingers, pyLower f = f) :
    ensureFingers hand suffix segs
        (ensureFingers hand suffix segs bones fingers).1 fingers
      = ((ensureFingers hand suffix segs bones fingers).1,
         fingers.map (fun f => (f, "existed"))) :=
  ensureFingers_all_exist hand suffix segs fingers _
    (fun f hf => ensureFingers_establishes hand suffix segs hsegs
      fingers bones hlow f hf)

/-- Concrete instantiation of `claim_c4_ensure_finger_chains_idempotent`:
for a lone hand bone, three segments and the five standard fingers, the
second run returns the first run state unchanged and reports every finger
as `existed`. -/
theorem claim_c4_ensure_finger_chains_idempotent_witness :
    ensureFingers (nb "hand.l") ".l" 3
        (ensureFingers (nb "hand.l") ".l" 3 [nb "hand.l"]
          ["thumb", "index", "middle", "ring", "pinky"]).1
        ["thumb", "index", "middle", "ring", "pinky"]
      = ((ensureFingers (nb "hand.l") ".l" 3 [nb "hand.l"]
          ["thumb", "index", "middle", "ring", "pinky"]).1,
         [("thumb", "existed"), ("index", "existed"), ("middle", "existed"),
          ("ring", "existed"), ("pinky", "existed")]) :=
  claim_c4_ensure_finger_chains_idempotent (nb "hand.l") ".l" 3
    ["thumb", "index", "middle", "ring", "pinky"] [nb "hand.l"]
    (by decide) (by decide)

/-- C4 as stated fails for segment count 0: nothing is created, so the
second run repeats the creation branch and reports `created`, not
`existed`, for the requested finger. -/
theorem claim_c4_counterexample :
    (ensureFingers (nb "hand.l") ".l" 0
        (ensureFingers (nb "hand.l") ".l" 0 [nb "hand.l"] ["thumb"]).1
        ["thumb"]).2 = [("thumb", "created")] ∧
    (ensureFingers (nb "hand.l") ".l" 0
        (ensureFingers (nb "hand.l") ".l" 0 [nb "hand.l"] ["thumb"]).1
        ["thumb"]).2 ≠ [("thumb", "existed")] := by
  refine ⟨by decide, by decide⟩

/-- C2 fails on the code: in a scene whose armature is targeted by no mesh,
`find_best_humanoid_candidate` returns the first mesh with a positive vertex
count instead of the mesh with the greatest vertex count.  With scene
`[armature Rig (1 bone), mesh A (1 vertex), mesh B (100 vertices)]` and no
armature modifiers anywhere, the armature pass selects `Rig`, no mesh
targets it, and the scan sets `mesh_obj := A` by the fallback and then
breaks at `B` before comparing vertex counts, returning `A`; the mesh with
the greatest vertex count is `B`. -/
theorem claim_c2_find_best_counterexample :
    find_best_humanoid_candidate
        [.armature ⟨"Rig", [nb "bone"]⟩, .mesh ⟨"A", 1, []⟩,
         .mesh ⟨"B", 100, []⟩] =
      (some ⟨"A", 1, []⟩, some ⟨"Rig", [nb "bone"]⟩) ∧
    maxVertexMesh
        [.armature ⟨"Rig", [nb "bone"]⟩, .mesh ⟨"A", 1, []⟩,
         .mesh ⟨"B", 100, []⟩] = some ⟨"B", 100, []⟩ := by
  constructor <;> rfl

/-- C1: rig-type classification follows the spec rule exactly: absent
armature gives `mesh_only`; more than 5 lower-cased bone names containing
`"mixamorig:"` gives `mixamo` regardless of total bone count; otherwise more
than 10 bones gives `generic_humanoid`; otherwise `unknown`.  The result is a
pure function of the bone-name set: two armatures whose (duplicate-free)
bone-name lists have the same name set classify identically. -/
theorem claim_c1_detect_rig_type (arm a b : ArmObj) :
    detect_rig_type none = "mesh_only" ∧
    (mixamoHits (arm.bones.map Bone.name) > 5 →
      detect_rig_type (some arm) = "mixamo") ∧
    (mixamoHits (arm.bones.map Bone.name) ≤ 5 → arm.bones.length > 10 →
      detect_rig_type (some arm) = "generic_humanoid") ∧
    (mixamoHits (arm.bones.map Bone.name) ≤ 5 → arm.bones.length ≤ 10 →
      detect_rig_type (some arm) = "unknown") ∧
    ((a.bones.map Bone.name).Nodup → (b.bones.map Bone.name).Nodup →
      (a.bones.map Bone.name).toFinset = (b.bones.map Bone.name).toFinset →
      detect_rig_type (some a) = detect_rig_type (some b)) := by
  refine ⟨rfl, ?_, ?_, ?_, ?_⟩
  · intro h
    rw [detect_rig_type_some, if_pos h]
  · intro h1 h2
    rw [detect_rig_type_some, if_neg (by omega), if_pos h2]
  · intro h1 h2
    rw [detect_rig_type_some, if_neg (by omega), if_neg (by omega)]
  · intro ha hb hset
    have hlen : a.bones.length = b.bones.length := by
      have la := List.toFinset_card_of_nodup ha
      have lb := List.toFinset_card_of_nodup hb
      rw [hset] at la
      rw [List.length_map] at la lb
      omega
    have hhits : mixamoHits (a.bones.map Bone.name) =
        mixamoHits (b.bones.map Bone.name) := by
      unfold mixamoHits
      have fa := List.toFinset_card_of_nodup
        (ha.filter (p := fun n => pyContains (pyLower n) "mixamorig:"))
      have fb := List.toFinset_card_of_nodup
        (hb.filter (p := fun n => pyContains (pyLower n) "mixamorig:"))
      rw [List.toFinset_filter, hset, ← List.toFinset_filter] at fa
      omega
    rw [detect_rig_type_some, detect_rig_type_some, hhits, hlen]

/-- Concrete instantiation of `claim_c1_detect_rig_type`: a six-bone Mixamo
armature classifies as `mixamo`, small armatures as `unknown`, an eleven-bone
armature as `generic_humanoid`, and classification is insensitive to
bone-name order. -/
theorem claim_c1_detect_rig_type_witness :
    detect_rig_type none = "mesh_only" ∧
    detect_rig_type (some ⟨"RigM", (["mixamorig:Hips", "mixamorig:Spine",
      "mixamorig:Head", "mixamorig:LeftHand", "mixamorig:RightHand",
      "mixamorig:Neck"].map nb)⟩) = "mixamo" ∧
    detect_rig_type (some ⟨"RigG", (["b1", "b2", "b3", "b4", "b5", "b6",
      "b7", "b8", "b9", "b10", "b11"].map nb)⟩) = "generic_humanoid" ∧
    detect_rig_type (some ⟨"RigU", ([nb "x", nb "y"])⟩) = "unknown" ∧
    detect_rig_type (some ⟨"RigU", ([nb "x", nb "y"])⟩) =
      detect_rig_type (some ⟨"RigV", ([nb "y", nb "x"])⟩) := by
  obtain ⟨h1, h2, -, -, -⟩ := claim_c1_detect_rig_type
    ⟨"RigM", (["mixamorig:Hips", "mixamorig:Spine", "mixamorig:Head",
      "mixamorig:LeftHand", "mixamorig:RightHand", "mixamorig:Neck"].map nb)⟩
    ⟨"RigU", ([nb "x", nb "y"])⟩ ⟨"RigV", ([nb "y", nb "x"])⟩
  obtain ⟨-, -, h3, -, -⟩ := claim_c1_detect_rig_type
    ⟨"RigG", (["b1", "b2", "b3", "b4", "b5", "b6", "b7", "b8", "b9", "b10",
      "b11"].map nb)⟩ ⟨"RigU", ([nb "x", nb "y"])⟩ ⟨"RigV", ([nb "y", nb "x"])⟩
  obtain ⟨-, -, -, h4, h5⟩ := claim_c1_detect_rig_type
    ⟨"RigU", ([nb "x", nb "y"])⟩ ⟨"RigU", ([nb "x", nb "y"])⟩
    ⟨"RigV", ([nb "y", nb "x"])⟩
  exact ⟨h1, h2 (by decide), h3 (by decide) (by decide),
    h4 (by decide) (by decide), h5 (by decide) (by decide) (by decide)⟩

end BlenderMCP
